import Mathlib

/-!
Verification of the layered packet dispatch decoder (`src/packet_decoder.rs`):
`PacketHeaders::from_ethernet_slice`, `PacketHeaders::from_ip_slice` and the
`read_transport` helper.

Byte buffers are modelled as `List Nat` (one element per byte), and the Rust
`&[u8]` cursor that shrinks from the front becomes explicit `List.drop`.
Fallible reads return `Except ReadError`, mirroring `Result<_, ReadError>`.

The individual header collaborators (Ethernet II, single VLAN tag, IPv4, IPv6,
the IPv6 extension-header-chain skipper, TCP, UDP, and the version-sensing IP
reader) live outside the decoder module; they are modelled here from the
spec's collaborator contracts (each `read` consumes exactly its header's
bytes and returns the remaining bytes, failing on truncated or structurally
invalid input).
-/

/-- Error type for decode failures, mirroring the `ReadError` cases the
decoder can produce or propagate. -/
inductive ReadError where
  | UnexpectedEndOfSlice (minimum_length : Nat)
  | Ipv4UnexpectedVersion (version : Nat)
  | Ipv6UnexpectedVersion (version : Nat)
  | IpUnsupportedVersion (version : Nat)
  | Ipv4HeaderLengthBad (ihl : Nat)
  | TcpDataOffsetTooSmall (data_offset : Nat)
  | Ipv6TooManyHeaderExtensions
deriving DecidableEq, Repr

/-- Big-endian 16-bit value from two bytes. -/
def be16 (hi lo : Nat) : Nat := 256 * hi + lo

/-- Ethernet II header (fields relevant to the decoder). -/
structure Ethernet2Header where
  destination : List Nat
  source : List Nat
  ether_type : Nat
deriving DecidableEq, Repr

/-- Modelled from the spec: the link-layer header collaborator.  An
Ethernet II header is 14 bytes (6 destination, 6 source, 2 ether type,
big-endian); reading fails when fewer than 14 bytes are available and
consumes exactly 14 bytes otherwise. -/
def Ethernet2Header.read_from_slice (s : List Nat) :
    Except ReadError (Ethernet2Header × List Nat) :=
  if 14 ≤ s.length then
    .ok ({ destination := s.take 6,
           source := (s.drop 6).take 6,
           ether_type := be16 (s.getD 12 0) (s.getD 13 0) },
         s.drop 14)
  else .error (.UnexpectedEndOfSlice 14)

/-- A single VLAN tag (fields relevant to the decoder). -/
structure SingleVlanHeader where
  vlan_identifier : Nat
  ether_type : Nat
deriving DecidableEq, Repr

/-- Modelled from the spec: the VLAN-tag collaborator.  A VLAN tag is a
4-byte insertion carrying a VLAN identifier (low 12 bits of the first two
bytes) and its own ether type (last two bytes, big-endian); reading fails
when fewer than 4 bytes are available and consumes exactly 4 bytes
otherwise. -/
def SingleVlanHeader.read_from_slice (s : List Nat) :
    Except ReadError (SingleVlanHeader × List Nat) :=
  if 4 ≤ s.length then
    .ok ({ vlan_identifier := be16 (s.getD 0 0) (s.getD 1 0) % 4096,
           ether_type := be16 (s.getD 2 0) (s.getD 3 0) },
         s.drop 4)
  else .error (.UnexpectedEndOfSlice 4)

/-- Two stacked VLAN tags. -/
structure DoubleVlanHeader where
  outer : SingleVlanHeader
  inner : SingleVlanHeader
deriving DecidableEq, Repr

/-- VLAN presence in the decoded result: a single tag or a double tag. -/
inductive VlanHeader where
  | Single (header : SingleVlanHeader)
  | Double (header : DoubleVlanHeader)
deriving DecidableEq, Repr

/-- IPv4 header (fields relevant to the decoder). -/
structure Ipv4Header where
  total_length : Nat
  time_to_live : Nat
  protocol : Nat
  source : List Nat
  destination : List Nat
  options : List Nat
deriving DecidableEq, Repr

/-- Byte length of an IPv4 header: 20 fixed bytes plus its options. -/
def Ipv4Header.header_len (h : Ipv4Header) : Nat := 20 + h.options.length

/-- Modelled from the spec: the IPv4 collaborator.  The first byte holds the
version nibble (must be 4) and the header length in 4-byte units (must be at
least 5); the header occupies `4 * ihl` bytes (20 fixed plus options); the
protocol number is byte 9.  Reading fails on truncation or on a structurally
invalid version/length field, and consumes exactly the header's declared
length otherwise. -/
def Ipv4Header.read_from_slice (s : List Nat) :
    Except ReadError (Ipv4Header × List Nat) :=
  if 20 ≤ s.length then
    if s.getD 0 0 / 16 ≠ 4 then .error (.Ipv4UnexpectedVersion (s.getD 0 0 / 16))
    else if s.getD 0 0 % 16 < 5 then .error (.Ipv4HeaderLengthBad (s.getD 0 0 % 16))
    else if 4 * (s.getD 0 0 % 16) ≤ s.length then
      .ok ({ total_length := be16 (s.getD 2 0) (s.getD 3 0),
             time_to_live := s.getD 8 0,
             protocol := s.getD 9 0,
             source := (s.drop 12).take 4,
             destination := (s.drop 16).take 4,
             options := (s.drop 20).take (4 * (s.getD 0 0 % 16) - 20) },
           s.drop (4 * (s.getD 0 0 % 16)))
    else .error (.UnexpectedEndOfSlice (4 * (s.getD 0 0 % 16)))
  else .error (.UnexpectedEndOfSlice 20)

/-- IPv6 header (fields relevant to the decoder). -/
structure Ipv6Header where
  payload_length : Nat
  next_header : Nat
  hop_limit : Nat
  source : List Nat
  destination : List Nat
deriving DecidableEq, Repr

/-- Modelled from the spec: the IPv6 collaborator.  The fixed IPv6 header is
40 bytes; the version nibble (high nibble of byte 0) must be 6; the
next-header field is byte 6.  Reading fails on truncation or a wrong version
and consumes exactly 40 bytes otherwise. -/
def Ipv6Header.read_from_slice (s : List Nat) :
    Except ReadError (Ipv6Header × List Nat) :=
  if 40 ≤ s.length then
    if s.getD 0 0 / 16 ≠ 6 then .error (.Ipv6UnexpectedVersion (s.getD 0 0 / 16))
    else
      .ok ({ payload_length := be16 (s.getD 4 0) (s.getD 5 0),
             next_header := s.getD 6 0,
             hop_limit := s.getD 7 0,
             source := (s.drop 8).take 16,
             destination := (s.drop 24).take 16 },
           s.drop 40)
  else .error (.UnexpectedEndOfSlice 40)

/-- IPv6 hop-by-hop options extension header protocol number. -/
def IPV6_HOP_BY_HOP : Nat := 0
/-- IPv6 routing extension header protocol number. -/
def IPV6_ROUTE : Nat := 43
/-- IPv6 fragmentation extension header protocol number. -/
def IPV6_FRAG : Nat := 44
/-- IPv6 destination options extension header protocol number. -/
def IPV6_DEST_OPTIONS : Nat := 60
/-- Bound on the number of chained IPv6 extension headers the skipper will
walk before declaring the chain unterminated. -/
def IPV6_MAX_NUM_HEADER_EXTENSIONS : Nat := 7

/-- Whether a protocol number names an IPv6 extension header. -/
def is_ipv6_ext_header_type (protocol : Nat) : Bool :=
  protocol == IPV6_HOP_BY_HOP || protocol == IPV6_ROUTE ||
  protocol == IPV6_FRAG || protocol == IPV6_DEST_OPTIONS

/-- Byte length of one IPv6 extension header: the fragmentation header is a
fixed 8 bytes, every other extension header carries a length byte (byte 1)
giving its size as `8 * (len + 1)` bytes. -/
def ipv6_ext_header_length (next_header : Nat) (rest : List Nat) : Nat :=
  if next_header = IPV6_FRAG then 8 else 8 * (rest.getD 1 0 + 1)

/-- Modelled from the spec: one step of the extension-chain-skipper.  Each
extension header begins with the next protocol number (byte 0) followed by
its length information.  `fuel` bounds the number of chained extension
headers walked (the spec requires termination in bounded time); exceeding it
is the unterminated-extension-chain failure. -/
def skip_header_extensions_go (fuel : Nat) (rest : List Nat) (next_header : Nat) :
    Except ReadError (Nat × List Nat) :=
  match fuel with
  | 0 => .error .Ipv6TooManyHeaderExtensions
  | fuel' + 1 =>
    if is_ipv6_ext_header_type next_header then
      if 8 ≤ rest.length then
        if ipv6_ext_header_length next_header rest ≤ rest.length then
          skip_header_extensions_go fuel'
            (rest.drop (ipv6_ext_header_length next_header rest))
            (rest.getD 0 0)
        else .error (.UnexpectedEndOfSlice (ipv6_ext_header_length next_header rest))
      else .error (.UnexpectedEndOfSlice 8)
    else .ok (next_header, rest)

/-- Modelled from the spec: the extension-chain-skipper collaborator.  Given
the remaining bytes and the fixed header's next-header value, it consumes
exactly the bytes of the chained extension headers and returns the final
upstream protocol number with the remaining bytes. -/
def Ipv6Header.skip_all_header_extensions_in_slice (s : List Nat) (next_header : Nat) :
    Except ReadError (Nat × List Nat) :=
  skip_header_extensions_go IPV6_MAX_NUM_HEADER_EXTENSIONS s next_header

/-- UDP header. -/
structure UdpHeader where
  source_port : Nat
  destination_port : Nat
  length : Nat
  checksum : Nat
deriving DecidableEq, Repr

/-- Modelled from the spec: the UDP collaborator.  A UDP header is 8 bytes
(source port, destination port, length, checksum, all big-endian 16-bit);
reading fails when fewer than 8 bytes are available and consumes exactly 8
bytes otherwise. -/
def UdpHeader.read_from_slice (s : List Nat) :
    Except ReadError (UdpHeader × List Nat) :=
  if 8 ≤ s.length then
    .ok ({ source_port := be16 (s.getD 0 0) (s.getD 1 0),
           destination_port := be16 (s.getD 2 0) (s.getD 3 0),
           length := be16 (s.getD 4 0) (s.getD 5 0),
           checksum := be16 (s.getD 6 0) (s.getD 7 0) },
         s.drop 8)
  else .error (.UnexpectedEndOfSlice 8)

/-- TCP header (fields relevant to the decoder). -/
structure TcpHeader where
  source_port : Nat
  destination_port : Nat
  options : List Nat
deriving DecidableEq, Repr

/-- Byte length of a TCP header: 20 fixed bytes plus its options. -/
def TcpHeader.header_len (h : TcpHeader) : Nat := 20 + h.options.length

/-- Modelled from the spec: the TCP collaborator.  A TCP header is at least
20 bytes; the data-offset nibble (high nibble of byte 12) gives the header
length in 4-byte units and must be at least 5.  Reading fails on truncation
or a too-small data offset and consumes exactly `4 * data_offset` bytes
otherwise. -/
def TcpHeader.read_from_slice (s : List Nat) :
    Except ReadError (TcpHeader × List Nat) :=
  if 20 ≤ s.length then
    if s.getD 12 0 / 16 < 5 then .error (.TcpDataOffsetTooSmall (s.getD 12 0 / 16))
    else if 4 * (s.getD 12 0 / 16) ≤ s.length then
      .ok ({ source_port := be16 (s.getD 0 0) (s.getD 1 0),
             destination_port := be16 (s.getD 2 0) (s.getD 3 0),
             options := (s.drop 20).take (4 * (s.getD 12 0 / 16) - 20) },
           s.drop (4 * (s.getD 12 0 / 16)))
    else .error (.UnexpectedEndOfSlice (4 * (s.getD 12 0 / 16)))
  else .error (.UnexpectedEndOfSlice 20)

/-- Decoded IP header: version 4 or version 6. -/
inductive IpHeader where
  | Version4 (header : Ipv4Header)
  | Version6 (header : Ipv6Header)
deriving DecidableEq, Repr

/-- Modelled from the spec: the version-sensing IP collaborator.  It
determines v4 vs v6 from the leading version nibble and delegates to the
corresponding reader; any other version is a failure. -/
def IpHeader.read_from_slice (s : List Nat) :
    Except ReadError (IpHeader × List Nat) :=
  if 1 ≤ s.length then
    if s.getD 0 0 / 16 = 4 then
      match Ipv4Header.read_from_slice s with
      | .ok (h, rest) => .ok (.Version4 h, rest)
      | .error e => .error e
    else if s.getD 0 0 / 16 = 6 then
      match Ipv6Header.read_from_slice s with
      | .ok (h, rest) => .ok (.Version6 h, rest)
      | .error e => .error e
    else .error (.IpUnsupportedVersion (s.getD 0 0 / 16))
  else .error (.UnexpectedEndOfSlice 1)

/-- Decoded transport header: TCP or UDP. -/
inductive TransportHeader where
  | Udp (header : UdpHeader)
  | Tcp (header : TcpHeader)
deriving DecidableEq, Repr

/-- `EtherType::VlanTaggedFrame as u16`. -/
def VLAN_TAGGED_FRAME : Nat := 0x8100
/-- `EtherType::ProviderBridging as u16`. -/
def PROVIDER_BRIDGING : Nat := 0x88A8
/-- `EtherType::VlanDoubleTaggedFrame as u16`. -/
def VLAN_DOUBLE_TAGGED_FRAME : Nat := 0x9100
/-- `EtherType::Ipv4 as u16`. -/
def IPV4 : Nat := 0x0800
/-- `EtherType::Ipv6 as u16`. -/
def IPV6 : Nat := 0x86DD
/-- `IpTrafficClass::Udp as u8`. -/
def UDP : Nat := 17
/-- `IpTrafficClass::Tcp as u8`. -/
def TCP : Nat := 6

/-- The three VLAN markers of the `match` arms in `from_ethernet_slice`. -/
def is_vlan_ether_type (t : Nat) : Bool :=
  t == VLAN_TAGGED_FRAME || t == PROVIDER_BRIDGING || t == VLAN_DOUBLE_TAGGED_FRAME

/-- Decoded packet headers (data link layer and higher), the result of
`PacketHeaders.from_ethernet_slice` or `PacketHeaders.from_ip_slice`.  The
`payload` is the rest of the packet that could not be decoded as a header. -/
structure PacketHeaders where
  link : Option Ethernet2Header
  vlan : Option VlanHeader
  ip : Option IpHeader
  transport : Option TransportHeader
  payload : List Nat
deriving DecidableEq, Repr

/-- Helper function to process transport headers (`read_transport` in
`packet_decoder.rs`): UDP and TCP are read by their collaborators, any other
protocol number yields no transport header and leaves the slice unchanged. -/
def read_transport (protocol : Nat) (rest : List Nat) :
    Except ReadError (Option TransportHeader × List Nat) :=
  if protocol = UDP then
    match UdpHeader.read_from_slice rest with
    | .ok (value, value_rest) => .ok (some (.Udp value), value_rest)
    | .error e => .error e
  else if protocol = TCP then
    match TcpHeader.read_from_slice rest with
    | .ok (value, value_rest) => .ok (some (.Tcp value), value_rest)
    | .error e => .error e
  else .ok (none, rest)

/-- The VLAN-resolution block of `from_ethernet_slice` (`result.vlan = match
ether_type { ... }` plus its updates of `rest` and `ether_type`), as a
function from the link header's ether type and the remaining bytes to the
`vlan` field, the new rest and the effective ether type. -/
def vlan_step (ether_type : Nat) (rest : List Nat) :
    Except ReadError (Option VlanHeader × List Nat × Nat) :=
  if is_vlan_ether_type ether_type then
    match SingleVlanHeader.read_from_slice rest with
    | .error e => .error e
    | .ok (outer, outer_rest) =>
      if is_vlan_ether_type outer.ether_type then
        match SingleVlanHeader.read_from_slice outer_rest with
        | .error e => .error e
        | .ok (inner, inner_rest) =>
          .ok (some (.Double { outer := outer, inner := inner }),
               inner_rest, inner.ether_type)
      else .ok (some (.Single outer), outer_rest, outer.ether_type)
  else .ok (none, rest, ether_type)

/-- `PacketHeaders::from_ethernet_slice`: tries to decode as much as
possible of a packet, starting at an Ethernet II header.  The Rust
`result`/`rest`/`ether_type` mutation is threaded explicitly. -/
def PacketHeaders.from_ethernet_slice (packet : List Nat) :
    Except ReadError PacketHeaders :=
  match Ethernet2Header.read_from_slice packet with
  | .error e => .error e
  | .ok (ethernet, rest0) =>
    match vlan_step ethernet.ether_type rest0 with
    | .error e => .error e
    | .ok (vlan, rest1, ether_type) =>
      if ether_type = IPV4 then
        match Ipv4Header.read_from_slice rest1 with
        | .error e => .error e
        | .ok (ip, ip_rest) =>
          match read_transport ip.protocol ip_rest with
          | .error e => .error e
          | .ok (transport, transport_rest) =>
            .ok { link := some ethernet, vlan := vlan,
                  ip := some (.Version4 ip), transport := transport,
                  payload := transport_rest }
      else if ether_type = IPV6 then
        match Ipv6Header.read_from_slice rest1 with
        | .error e => .error e
        | .ok (ip, ip_rest) =>
          match Ipv6Header.skip_all_header_extensions_in_slice ip_rest ip.next_header with
          | .error e => .error e
          | .ok (next_header, ip_rest2) =>
            match read_transport next_header ip_rest2 with
            | .error e => .error e
            | .ok (transport, transport_rest) =>
              .ok { link := some ethernet, vlan := vlan,
                    ip := some (.Version6 ip), transport := transport,
                    payload := transport_rest }
      else
        .ok { link := some ethernet, vlan := vlan, ip := none,
              transport := none, payload := rest1 }

/-- The transport-protocol resolution block of `from_ip_slice` (the `match
&ip { ... }` that grabs the transport protocol): for v4 the protocol number
is read directly from the header, for v6 the extension-header chain is
walked. -/
def ip_transport_proto (ip : IpHeader) (rest : List Nat) :
    Except ReadError (Nat × List Nat) :=
  match ip with
  | .Version4 h => .ok (h.protocol, rest)
  | .Version6 h => Ipv6Header.skip_all_header_extensions_in_slice rest h.next_header

/-- `PacketHeaders::from_ip_slice`: tries to decode an IP packet and its
transport headers; the slice is assumed to start with the first byte of the
IP header. -/
def PacketHeaders.from_ip_slice (packet : List Nat) :
    Except ReadError PacketHeaders :=
  match IpHeader.read_from_slice packet with
  | .error e => .error e
  | .ok (ip, rest) =>
    match ip_transport_proto ip rest with
    | .error e => .error e
    | .ok (transport_proto, rest2) =>
      match read_transport transport_proto rest2 with
      | .error e => .error e
      | .ok (transport, rest3) =>
        .ok { link := none, vlan := none, ip := some ip,
              transport := transport, payload := rest3 }

/-- Byte length of the `link` field (an Ethernet II header is 14 bytes). -/
def link_len : Option Ethernet2Header → Nat
  | none => 0
  | some _ => 14

/-- Byte length of the `vlan` field (4 bytes per tag). -/
def vlan_len : Option VlanHeader → Nat
  | none => 0
  | some (.Single _) => 4
  | some (.Double _) => 8

/-- Byte length of the `ip` field. -/
def ip_len : Option IpHeader → Nat
  | none => 0
  | some (.Version4 h) => h.header_len
  | some (.Version6 _) => 40

/-- Byte length of the `transport` field. -/
def transport_len : Option TransportHeader → Nat
  | none => 0
  | some (.Udp _) => 8
  | some (.Tcp h) => h.header_len

/-- Sum of the byte lengths of all present headers, in stack order. -/
def PacketHeaders.headers_len (p : PacketHeaders) : Nat :=
  link_len p.link + vlan_len p.vlan + ip_len p.ip + transport_len p.transport

deriving instance DecidableEq for Except

/-- End-to-end UDP scenario packet (44 bytes): Ethernet II header with ether
type 0x0800, 20-byte IPv4 header with protocol 17, 8-byte UDP header whose
length field covers the header plus 2 bytes, and payload `[0x41, 0x42]`. -/
def udp_scenario_packet : List Nat :=
  [1,2,3,4,5,6, 7,8,9,10,11,12, 0x08,0x00,
   0x45,0, 0,30, 0,0, 0,0, 64,17, 0,0, 192,168,1,1, 192,168,1,2,
   0,21, 4,210, 0,10, 0,0,
   0x41,0x42]

/-- The header stack the UDP scenario packet decodes to. -/
def udp_scenario_headers : PacketHeaders :=
  { link := some { destination := [1,2,3,4,5,6], source := [7,8,9,10,11,12],
                   ether_type := 0x0800 },
    vlan := none,
    ip := some (.Version4 { total_length := 30, time_to_live := 64, protocol := 17,
                            source := [192,168,1,1], destination := [192,168,1,2],
                            options := [] }),
    transport := some (.Udp { source_port := 21, destination_port := 1234,
                              length := 10, checksum := 0 }),
    payload := [0x41, 0x42] }

/-- The IPv4 + UDP + payload portion of the UDP scenario packet: its last 30
bytes. -/
def udp_scenario_ip_suffix : List Nat :=
  [0x45,0, 0,30, 0,0, 0,0, 64,17, 0,0, 192,168,1,1, 192,168,1,2,
   0,21, 4,210, 0,10, 0,0, 0x41,0x42]

/-- The header stack `udp_scenario_ip_suffix` decodes to via
`from_ip_slice`: the UDP scenario stack with no link and no vlan layer. -/
def udp_scenario_ip_headers : PacketHeaders :=
  { link := none, vlan := none, ip := udp_scenario_headers.ip,
    transport := udp_scenario_headers.transport,
    payload := udp_scenario_headers.payload }

/-- ARP packet: Ethernet II header with ether type 0x0806 followed by 5
trailing bytes. -/
def arp_packet : List Nat :=
  [1,2,3,4,5,6, 7,8,9,10,11,12, 0x08,0x06, 9,9,9,9,9]

/-- IPv6 packet with one hop-by-hop extension header (72 bytes): Ethernet II
header with ether type 0x86DD, 40-byte IPv6 header with next header 0
(hop-by-hop), an 8-byte hop-by-hop extension header naming UDP (17) next, an
8-byte UDP header and payload `[0x41, 0x42]`. -/
def ipv6_ext_packet : List Nat :=
  [1,2,3,4,5,6, 7,8,9,10,11,12, 0x86,0xDD,
   0x60,0,0,0, 0,18, 0,64,
   0,0,0,0,0,0,0,0,0,0,0,0,0,0,0,1,
   0,0,0,0,0,0,0,0,0,0,0,0,0,0,0,2,
   17, 0, 0,0,0,0,0,0,
   0,21, 4,210, 0,10, 0,0,
   0x41,0x42]

/-- The header stack `ipv6_ext_packet` decodes to: the hop-by-hop extension
header's 8 bytes appear in no field. -/
def ipv6_ext_headers : PacketHeaders :=
  { link := some { destination := [1,2,3,4,5,6], source := [7,8,9,10,11,12],
                   ether_type := 0x86DD },
    vlan := none,
    ip := some (.Version6 { payload_length := 18, next_header := 0,
                            hop_limit := 64,
                            source := [0,0,0,0,0,0,0,0,0,0,0,0,0,0,0,1],
                            destination := [0,0,0,0,0,0,0,0,0,0,0,0,0,0,0,2] }),
    transport := some (.Udp { source_port := 21, destination_port := 1234,
                              length := 10, checksum := 0 }),
    payload := [0x41, 0x42] }

/-- The 58 bytes of `ipv6_ext_packet` following its link header. -/
def ipv6_ext_ip_suffix : List Nat :=
  [0x60,0,0,0, 0,18, 0,64,
   0,0,0,0,0,0,0,0,0,0,0,0,0,0,0,1,
   0,0,0,0,0,0,0,0,0,0,0,0,0,0,0,2,
   17, 0, 0,0,0,0,0,0,
   0,21, 4,210, 0,10, 0,0,
   0x41,0x42]

/-- The 18 bytes of `ipv6_ext_packet` following its fixed IPv6 header (the
8-byte hop-by-hop extension header, the UDP header, the payload). -/
def ipv6_ext_after_ip : List Nat :=
  [17, 0, 0,0,0,0,0,0, 0,21, 4,210, 0,10, 0,0, 0x41, 0x42]

/-- The 10 bytes of `ipv6_ext_packet` following its extension chain (the
UDP header and the payload). -/
def ipv6_ext_after_chain : List Nat :=
  [0,21, 4,210, 0,10, 0,0, 0x41, 0x42]

/-- Truncated TCP packet (24 bytes): a 20-byte IPv4 header announcing TCP
(protocol 6) followed by only 4 bytes, fewer than a minimal TCP header. -/
def truncated_tcp_packet : List Nat :=
  [0x45,0, 0,24, 0,0, 0,0, 64,6, 0,0, 192,168,1,1, 192,168,1,2, 1,2,3,4]

/-- Triple-VLAN-marker packet (25 bytes): Ethernet II header with ether type
0x8100, a first VLAN tag whose ether type is again 0x8100, a second VLAN tag
whose own ether type is the VLAN marker 0x9100, and 3 trailing bytes. -/
def triple_vlan_packet : List Nat :=
  [1,2,3,4,5,6, 7,8,9,10,11,12, 0x81,0x00, 0,5, 0x81,0x00, 0,6, 0x91,0x00, 1,2,3]

/-- The Ethernet II header at the head of `triple_vlan_packet`. -/
def triple_vlan_eth : Ethernet2Header :=
  { destination := [1,2,3,4,5,6], source := [7,8,9,10,11,12], ether_type := 0x8100 }

/-- The outer VLAN tag of `triple_vlan_packet`. -/
def triple_vlan_outer : SingleVlanHeader := { vlan_identifier := 5, ether_type := 0x8100 }

/-- The inner VLAN tag of `triple_vlan_packet`; its own ether type is again
a VLAN marker. -/
def triple_vlan_inner : SingleVlanHeader := { vlan_identifier := 6, ether_type := 0x9100 }

/-- The header stack `triple_vlan_packet` decodes to: exactly two VLAN tags,
no network or transport layer, and the bytes after the second tag as
payload. -/
def triple_vlan_headers : PacketHeaders :=
  { link := some triple_vlan_eth,
    vlan := some (.Double { outer := triple_vlan_outer, inner := triple_vlan_inner }),
    ip := none, transport := none, payload := [1,2,3] }

theorem eth_read_ok_len {s : List Nat} {h : Ethernet2Header} {r : List Nat}
    (hok : Ethernet2Header.read_from_slice s = .ok (h, r)) :
    s.length = 14 + r.length := by
  unfold Ethernet2Header.read_from_slice at hok
  split at hok
  · rename_i hle
    simp only [Except.ok.injEq, Prod.mk.injEq] at hok
    obtain ⟨-, hr⟩ := hok
    subst hr
    simp only [List.length_drop]
    omega
  · cases hok

theorem vlan_read_ok_len {s : List Nat} {h : SingleVlanHeader} {r : List Nat}
    (hok : SingleVlanHeader.read_from_slice s = .ok (h, r)) :
    s.length = 4 + r.length := by
  unfold SingleVlanHeader.read_from_slice at hok
  split at hok
  · rename_i hle
    simp only [Except.ok.injEq, Prod.mk.injEq] at hok
    obtain ⟨-, hr⟩ := hok
    subst hr
    simp only [List.length_drop]
    omega
  · cases hok

theorem ipv4_read_ok_facts {s : List Nat} {h : Ipv4Header} {r : List Nat}
    (hok : Ipv4Header.read_from_slice s = .ok (h, r)) :
    s.length = h.header_len + r.length ∧ s.getD 0 0 / 16 = 4 ∧ 20 ≤ s.length := by
  unfold Ipv4Header.read_from_slice at hok
  split at hok
  · rename_i hle
    split at hok
    · cases hok
    · rename_i hv
      split at hok
      · cases hok
      · rename_i hihl
        split at hok
        · rename_i hfit
          simp only [Except.ok.injEq, Prod.mk.injEq] at hok
          obtain ⟨hh, hr⟩ := hok
          subst hh
          subst hr
          refine ⟨?_, by omega, hle⟩
          simp only [Ipv4Header.header_len, List.length_take, List.length_drop]
          omega
        · cases hok
  · cases hok

theorem ipv6_read_ok_facts {s : List Nat} {h : Ipv6Header} {r : List Nat}
    (hok : Ipv6Header.read_from_slice s = .ok (h, r)) :
    s.length = 40 + r.length ∧ s.getD 0 0 / 16 = 6 := by
  unfold Ipv6Header.read_from_slice at hok
  split at hok
  · rename_i hle
    split at hok
    · cases hok
    · rename_i hv
      simp only [Except.ok.injEq, Prod.mk.injEq] at hok
      obtain ⟨-, hr⟩ := hok
      subst hr
      refine ⟨?_, by omega⟩
      simp only [List.length_drop]
      omega
  · cases hok

theorem udp_read_ok_len {s : List Nat} {h : UdpHeader} {r : List Nat}
    (hok : UdpHeader.read_from_slice s = .ok (h, r)) :
    s.length = 8 + r.length := by
  unfold UdpHeader.read_from_slice at hok
  split at hok
  · rename_i hle
    simp only [Except.ok.injEq, Prod.mk.injEq] at hok
    obtain ⟨-, hr⟩ := hok
    subst hr
    simp only [List.length_drop]
    omega
  · cases hok

theorem tcp_read_ok_len {s : List Nat} {h : TcpHeader} {r : List Nat}
    (hok : TcpHeader.read_from_slice s = .ok (h, r)) :
    s.length = h.header_len + r.length := by
  unfold TcpHeader.read_from_slice at hok
  split at hok
  · rename_i hle
    split at hok
    · cases hok
    · rename_i hdo
      split at hok
      · rename_i hfit
        simp only [Except.ok.injEq, Prod.mk.injEq] at hok
        obtain ⟨hh, hr⟩ := hok
        subst hh
        subst hr
        simp only [TcpHeader.header_len, List.length_take, List.length_drop]
        omega
      · cases hok
  · cases hok

theorem skip_go_ok_len : ∀ (fuel : Nat) (s : List Nat) (nh p : Nat) (r : List Nat),
    skip_header_extensions_go fuel s nh = .ok (p, r) →
    ∃ k, s.length = k + r.length := by
  intro fuel
  induction fuel with
  | zero =>
    intro s nh p r hok
    unfold skip_header_extensions_go at hok
    cases hok
  | succ n ih =>
    intro s nh p r hok
    unfold skip_header_extensions_go at hok
    split at hok
    · split at hok
      · rename_i h8
        split at hok
        · rename_i hfit
          obtain ⟨k, hk⟩ := ih _ _ _ _ hok
          simp only [List.length_drop] at hk
          exact ⟨k + ipv6_ext_header_length nh s, by omega⟩
        · cases hok
      · cases hok
    · simp only [Except.ok.injEq, Prod.mk.injEq] at hok
      obtain ⟨-, hr⟩ := hok
      subst hr
      exact ⟨0, by omega⟩

theorem skip_all_ok_len {s : List Nat} {nh p : Nat} {r : List Nat}
    (hok : Ipv6Header.skip_all_header_extensions_in_slice s nh = .ok (p, r)) :
    ∃ k, s.length = k + r.length :=
  skip_go_ok_len _ _ _ _ _ hok

theorem read_transport_ok_len {protocol : Nat} {s : List Nat}
    {t : Option TransportHeader} {r : List Nat}
    (hok : read_transport protocol s = .ok (t, r)) :
    s.length = transport_len t + r.length := by
  unfold read_transport at hok
  split at hok
  · split at hok
    · rename_i hu
      simp only [Except.ok.injEq, Prod.mk.injEq] at hok
      obtain ⟨ht, hr⟩ := hok
      subst ht
      subst hr
      simpa [transport_len] using udp_read_ok_len hu
    · cases hok
  · split at hok
    · split at hok
      · rename_i hu
        simp only [Except.ok.injEq, Prod.mk.injEq] at hok
        obtain ⟨ht, hr⟩ := hok
        subst ht
        subst hr
        simpa [transport_len] using tcp_read_ok_len hu
      · cases hok
    · simp only [Except.ok.injEq, Prod.mk.injEq] at hok
      obtain ⟨ht, hr⟩ := hok
      subst ht
      subst hr
      simp [transport_len]

theorem vlan_step_ok_len {ether_type : Nat} {s : List Nat}
    {v : Option VlanHeader} {r : List Nat} {t : Nat}
    (hok : vlan_step ether_type s = .ok (v, r, t)) :
    s.length = vlan_len v + r.length := by
  unfold vlan_step at hok
  split at hok
  · split at hok
    · cases hok
    · rename_i outer orest ho
      split at hok
      · split at hok
        · cases hok
        · rename_i inner irest hi
          simp only [Except.ok.injEq, Prod.mk.injEq] at hok
          obtain ⟨hv, hr, -⟩ := hok
          subst hv
          subst hr
          have h1 := vlan_read_ok_len ho
          have h2 := vlan_read_ok_len hi
          simp only [vlan_len]
          omega
      · simp only [Except.ok.injEq, Prod.mk.injEq] at hok
        obtain ⟨hv, hr, -⟩ := hok
        subst hv
        subst hr
        have h1 := vlan_read_ok_len ho
        simp only [vlan_len]
        omega
  · simp only [Except.ok.injEq, Prod.mk.injEq] at hok
    obtain ⟨hv, hr, -⟩ := hok
    subst hv
    subst hr
    simp [vlan_len]

theorem ip_read_ok_len {s : List Nat} {h : IpHeader} {r : List Nat}
    (hok : IpHeader.read_from_slice s = .ok (h, r)) :
    s.length = ip_len (some h) + r.length := by
  unfold IpHeader.read_from_slice at hok
  split at hok
  · split at hok
    · split at hok
      · rename_i h4ok
        simp only [Except.ok.injEq, Prod.mk.injEq] at hok
        obtain ⟨hh, hr⟩ := hok
        subst hh
        subst hr
        simpa [ip_len] using (ipv4_read_ok_facts h4ok).1
      · cases hok
    · split at hok
      · split at hok
        · rename_i h6ok
          simp only [Except.ok.injEq, Prod.mk.injEq] at hok
          obtain ⟨hh, hr⟩ := hok
          subst hh
          subst hr
          simpa [ip_len] using (ipv6_read_ok_facts h6ok).1
        · cases hok
      · cases hok
  · cases hok

theorem ip_read_of_ipv4 {s : List Nat} {h : Ipv4Header} {r : List Nat}
    (hok : Ipv4Header.read_from_slice s = .ok (h, r)) :
    IpHeader.read_from_slice s = .ok (.Version4 h, r) := by
  obtain ⟨-, hv, hle⟩ := ipv4_read_ok_facts hok
  have h1 : 1 ≤ s.length := by omega
  unfold IpHeader.read_from_slice
  rw [if_pos h1, if_pos hv, hok]

theorem ip_transport_proto_ok_facts {ip : IpHeader} {rest : List Nat}
    {p : Nat} {rest2 : List Nat}
    (hok : ip_transport_proto ip rest = .ok (p, rest2)) :
    ∃ k, rest.length = k + rest2.length ∧ ((∀ h6, ip ≠ .Version6 h6) → k = 0) := by
  cases ip with
  | Version4 h4 =>
    simp only [ip_transport_proto, Except.ok.injEq, Prod.mk.injEq] at hok
    obtain ⟨-, hr⟩ := hok
    subst hr
    exact ⟨0, by omega, fun _ => rfl⟩
  | Version6 h6 =>
    simp only [ip_transport_proto] at hok
    obtain ⟨k, hk⟩ := skip_all_ok_len hok
    exact ⟨k, hk, fun hno => absurd rfl (hno _)⟩

/-- C1: for every input on which decoding succeeds (via either
`from_ethernet_slice` or `from_ip_slice`), the sum of the byte lengths of
all present headers (link, vlan, ip, transport, in stack order) plus the
payload length, plus the number of bytes consumed by the IPv6
extension-header chain, equals the length of the original input buffer.
First conjunct: when the decoded IP header is not IPv6 no chain is walked
and plain conservation holds.  Second and third conjuncts: when it is IPv6
(via `from_ethernet_slice` resp. `from_ip_slice`), the extra term is
exactly the drop in slice length across the extension-chain skipper, the
number of bytes it consumed. -/
theorem C1_byte_conservation_amended :
    ∀ (packet : List Nat) (r : PacketHeaders),
      ((PacketHeaders.from_ethernet_slice packet = .ok r ∨
        PacketHeaders.from_ip_slice packet = .ok r) →
       (∀ h6, r.ip ≠ some (.Version6 h6)) →
       r.headers_len + r.payload.length = packet.length) ∧
      (∀ eth rest0 vlan rest1 ip ip_rest next_header ip_rest2,
        Ethernet2Header.read_from_slice packet = .ok (eth, rest0) →
        vlan_step eth.ether_type rest0 = .ok (vlan, rest1, IPV6) →
        Ipv6Header.read_from_slice rest1 = .ok (ip, ip_rest) →
        Ipv6Header.skip_all_header_extensions_in_slice ip_rest ip.next_header =
          .ok (next_header, ip_rest2) →
        PacketHeaders.from_ethernet_slice packet = .ok r →
        r.headers_len + (ip_rest.length - ip_rest2.length) + r.payload.length =
          packet.length) ∧
      (∀ ip rest next_header rest2,
        IpHeader.read_from_slice packet = .ok (.Version6 ip, rest) →
        Ipv6Header.skip_all_header_extensions_in_slice rest ip.next_header =
          .ok (next_header, rest2) →
        PacketHeaders.from_ip_slice packet = .ok r →
        r.headers_len + (rest.length - rest2.length) + r.payload.length =
          packet.length) := by
  intro packet r
  refine ⟨?_, ?_, ?_⟩
  · intro hdec hno
    rcases hdec with hok | hok
    · unfold PacketHeaders.from_ethernet_slice at hok
      split at hok
      · cases hok
      · rename_i heth
        split at hok
        · cases hok
        · rename_i hvlan
          split at hok
          · split at hok
            · cases hok
            · rename_i hip
              split at hok
              · cases hok
              · rename_i htr
                simp only [Except.ok.injEq] at hok
                subst hok
                have e1 := eth_read_ok_len heth
                have e2 := vlan_step_ok_len hvlan
                have e3 := (ipv4_read_ok_facts hip).1
                have e4 := read_transport_ok_len htr
                simp only [PacketHeaders.headers_len, link_len, ip_len]
                omega
          · split at hok
            · split at hok
              · cases hok
              · rename_i hip
                split at hok
                · cases hok
                · rename_i hskip
                  split at hok
                  · cases hok
                  · rename_i htr
                    simp only [Except.ok.injEq] at hok
                    subst hok
                    exact absurd rfl (hno _)
            · simp only [Except.ok.injEq] at hok
              subst hok
              have e1 := eth_read_ok_len heth
              have e2 := vlan_step_ok_len hvlan
              simp only [PacketHeaders.headers_len, link_len, ip_len,
                transport_len]
              omega
    · unfold PacketHeaders.from_ip_slice at hok
      split at hok
      · cases hok
      · rename_i hipread
        split at hok
        · cases hok
        · rename_i hproto
          split at hok
          · cases hok
          · rename_i htr
            simp only [Except.ok.injEq] at hok
            subst hok
            have e1 := ip_read_ok_len hipread
            obtain ⟨k, e2, hzero⟩ := ip_transport_proto_ok_facts hproto
            have e3 := read_transport_ok_len htr
            have h0 : k = 0 := by
              apply hzero
              intro h6 hi
              exact hno h6 (by simp [hi])
            simp only [PacketHeaders.headers_len, link_len, vlan_len]
            omega
  · intro eth rest0 vlan rest1 ip ip_rest next_header ip_rest2
      heth hvlan hip hskip hok
    unfold PacketHeaders.from_ethernet_slice at hok
    simp only [heth] at hok
    simp only [hvlan] at hok
    rw [if_neg (by decide : ¬ (IPV6 = IPV4)), if_true] at hok
    simp only [hip] at hok
    simp only [hskip] at hok
    split at hok
    · cases hok
    · rename_i htr
      simp only [Except.ok.injEq] at hok
      subst hok
      have e1 := eth_read_ok_len heth
      have e2 := vlan_step_ok_len hvlan
      have e3 := (ipv6_read_ok_facts hip).1
      obtain ⟨k, e4⟩ := skip_all_ok_len hskip
      have e5 := read_transport_ok_len htr
      simp only [PacketHeaders.headers_len, link_len, ip_len]
      omega
  · intro ip rest next_header rest2 hipread hskip hok
    unfold PacketHeaders.from_ip_slice at hok
    simp only [hipread] at hok
    simp only [ip_transport_proto] at hok
    simp only [hskip] at hok
    split at hok
    · cases hok
    · rename_i htr
      simp only [Except.ok.injEq] at hok
      subst hok
      have e1 := ip_read_ok_len hipread
      obtain ⟨k, e2⟩ := skip_all_ok_len hskip
      have e3 := read_transport_ok_len htr
      simp only [PacketHeaders.headers_len, link_len, vlan_len, ip_len] at e1 ⊢
      omega

/-- C1 counterexample: on `ipv6_ext_packet` decoding succeeds but the sum of
the byte lengths of the present headers plus the payload length is 64, not
the 72 bytes of the input: the 8 bytes of the hop-by-hop extension header
are consumed yet appear in no field of the result. -/
theorem C1_byte_conservation_counterexample :
    PacketHeaders.from_ethernet_slice ipv6_ext_packet = .ok ipv6_ext_headers ∧
    ipv6_ext_headers.headers_len + ipv6_ext_headers.payload.length = 64 ∧
    ipv6_ext_packet.length = 72 := by decide

/-- C1 witness: the amended conservation equalities instantiated
concretely: plain conservation on the 44-byte UDP scenario packet (no IPv6
chain), and conservation plus the extension-chain skipper's consumed bytes
(18 - 10 = 8) on the 72-byte IPv6 hop-by-hop packet. -/
theorem C1_byte_conservation_witness :
    (udp_scenario_headers.headers_len + udp_scenario_headers.payload.length =
      udp_scenario_packet.length) ∧
    (ipv6_ext_headers.headers_len +
        (ipv6_ext_after_ip.length - ipv6_ext_after_chain.length) +
        ipv6_ext_headers.payload.length = ipv6_ext_packet.length) := by
  constructor
  · apply (C1_byte_conservation_amended udp_scenario_packet
      udp_scenario_headers).1 (Or.inl (by decide))
    intro h6 h
    simp [udp_scenario_headers] at h
  · exact (C1_byte_conservation_amended ipv6_ext_packet ipv6_ext_headers).2.1
      { destination := [1,2,3,4,5,6], source := [7,8,9,10,11,12],
        ether_type := 0x86DD }
      ipv6_ext_ip_suffix none ipv6_ext_ip_suffix
      { payload_length := 18, next_header := 0, hop_limit := 64,
        source := [0,0,0,0,0,0,0,0,0,0,0,0,0,0,0,1],
        destination := [0,0,0,0,0,0,0,0,0,0,0,0,0,0,0,2] }
      ipv6_ext_after_ip 17 ipv6_ext_after_chain
      (by decide) (by decide) (by decide) (by decide) (by decide)

theorem vlan_step_none {et : Nat} {s : List Nat}
    (h : is_vlan_ether_type et = false) :
    vlan_step et s = .ok (none, s, et) := by
  simp [vlan_step, h]

theorem vlan_step_single {et : Nat} {s : List Nat} {outer : SingleVlanHeader}
    {orest : List Nat} (h : is_vlan_ether_type et = true)
    (ho : SingleVlanHeader.read_from_slice s = .ok (outer, orest))
    (h2 : is_vlan_ether_type outer.ether_type = false) :
    vlan_step et s = .ok (some (.Single outer), orest, outer.ether_type) := by
  simp [vlan_step, h, ho, h2]

theorem vlan_step_double {et : Nat} {s : List Nat} {outer inner : SingleVlanHeader}
    {orest irest : List Nat} (h : is_vlan_ether_type et = true)
    (ho : SingleVlanHeader.read_from_slice s = .ok (outer, orest))
    (h2 : is_vlan_ether_type outer.ether_type = true)
    (hi : SingleVlanHeader.read_from_slice orest = .ok (inner, irest)) :
    vlan_step et s = .ok (some (.Double { outer := outer, inner := inner }),
      irest, inner.ether_type) := by
  simp [vlan_step, h, ho, h2, hi]

theorem vlan_marker_not_ip {t : Nat} (h : is_vlan_ether_type t = true) :
    t ≠ IPV4 ∧ t ≠ IPV6 := by
  unfold is_vlan_ether_type at h
  simp only [Bool.or_eq_true, beq_iff_eq] at h
  unfold IPV4 IPV6 VLAN_TAGGED_FRAME PROVIDER_BRIDGING VLAN_DOUBLE_TAGGED_FRAME at *
  omega

theorem from_eth_of_steps {packet : List Nat} {eth : Ethernet2Header}
    {rest0 : List Nat} {vlan : Option VlanHeader} {rest1 : List Nat} {t : Nat}
    (heth : Ethernet2Header.read_from_slice packet = .ok (eth, rest0))
    (hvlan : vlan_step eth.ether_type rest0 = .ok (vlan, rest1, t))
    (ht4 : t ≠ IPV4) (ht6 : t ≠ IPV6) :
    PacketHeaders.from_ethernet_slice packet =
      .ok { link := some eth, vlan := vlan, ip := none, transport := none,
            payload := rest1 } := by
  unfold PacketHeaders.from_ethernet_slice
  simp [heth, hvlan, ht4, ht6]

theorem from_eth_link_vlan_fields {packet : List Nat} {eth : Ethernet2Header}
    {rest0 : List Nat} {vlan : Option VlanHeader} {rest1 : List Nat} {t : Nat}
    {r : PacketHeaders}
    (heth : Ethernet2Header.read_from_slice packet = .ok (eth, rest0))
    (hvlan : vlan_step eth.ether_type rest0 = .ok (vlan, rest1, t))
    (hok : PacketHeaders.from_ethernet_slice packet = .ok r) :
    r.link = some eth ∧ r.vlan = vlan := by
  unfold PacketHeaders.from_ethernet_slice at hok
  simp only [heth] at hok
  simp only [hvlan] at hok
  split at hok
  · split at hok
    · cases hok
    · split at hok
      · cases hok
      · simp only [Except.ok.injEq] at hok
        subst hok
        exact ⟨rfl, rfl⟩
  · split at hok
    · split at hok
      · cases hok
      · split at hok
        · cases hok
        · split at hok
          · cases hok
          · simp only [Except.ok.injEq] at hok
            subst hok
            exact ⟨rfl, rfl⟩
    · simp only [Except.ok.injEq] at hok
      subst hok
      exact ⟨rfl, rfl⟩

theorem from_eth_ok_inv {packet : List Nat} {r : PacketHeaders}
    (hok : PacketHeaders.from_ethernet_slice packet = .ok r) :
    r.link.isSome ∧ (r.transport.isSome → r.ip.isSome) := by
  unfold PacketHeaders.from_ethernet_slice at hok
  split at hok
  · cases hok
  · split at hok
    · cases hok
    · split at hok
      · split at hok
        · cases hok
        · split at hok
          · cases hok
          · simp only [Except.ok.injEq] at hok
            subst hok
            exact ⟨rfl, fun _ => rfl⟩
      · split at hok
        · split at hok
          · cases hok
          · split at hok
            · cases hok
            · split at hok
              · cases hok
              · simp only [Except.ok.injEq] at hok
                subst hok
                exact ⟨rfl, fun _ => rfl⟩
        · simp only [Except.ok.injEq] at hok
          subst hok
          exact ⟨rfl, fun h => by simp at h⟩

theorem from_ip_ok_inv {packet : List Nat} {r : PacketHeaders}
    (hok : PacketHeaders.from_ip_slice packet = .ok r) :
    r.link = none ∧ r.vlan = none ∧ r.ip.isSome ∧
      (r.transport.isSome → r.ip.isSome) := by
  unfold PacketHeaders.from_ip_slice at hok
  split at hok
  · cases hok
  · split at hok
    · cases hok
    · split at hok
      · cases hok
      · simp only [Except.ok.injEq] at hok
        subst hok
        exact ⟨rfl, rfl, rfl, fun _ => rfl⟩

/-- C2: the first failure from any collaborator invoked during a decode call
aborts the whole call with that same failure (so no header stack, partial or
otherwise, is returned); in particular a 20-byte IPv4 header announcing TCP
followed by only 4 bytes makes the whole call fail with a truncation
error. -/
theorem C2_error_propagation :
    ∀ (packet : List Nat) (e : ReadError),
      (Ethernet2Header.read_from_slice packet = .error e →
        PacketHeaders.from_ethernet_slice packet = .error e) ∧
      (∀ eth rest0, Ethernet2Header.read_from_slice packet = .ok (eth, rest0) →
        vlan_step eth.ether_type rest0 = .error e →
        PacketHeaders.from_ethernet_slice packet = .error e) ∧
      (∀ eth rest0 vlan rest1,
        Ethernet2Header.read_from_slice packet = .ok (eth, rest0) →
        vlan_step eth.ether_type rest0 = .ok (vlan, rest1, IPV4) →
        Ipv4Header.read_from_slice rest1 = .error e →
        PacketHeaders.from_ethernet_slice packet = .error e) ∧
      (∀ eth rest0 vlan rest1 ip ip_rest,
        Ethernet2Header.read_from_slice packet = .ok (eth, rest0) →
        vlan_step eth.ether_type rest0 = .ok (vlan, rest1, IPV4) →
        Ipv4Header.read_from_slice rest1 = .ok (ip, ip_rest) →
        read_transport ip.protocol ip_rest = .error e →
        PacketHeaders.from_ethernet_slice packet = .error e) ∧
      (∀ eth rest0 vlan rest1,
        Ethernet2Header.read_from_slice packet = .ok (eth, rest0) →
        vlan_step eth.ether_type rest0 = .ok (vlan, rest1, IPV6) →
        Ipv6Header.read_from_slice rest1 = .error e →
        PacketHeaders.from_ethernet_slice packet = .error e) ∧
      (∀ eth rest0 vlan rest1 ip ip_rest,
        Ethernet2Header.read_from_slice packet = .ok (eth, rest0) →
        vlan_step eth.ether_type rest0 = .ok (vlan, rest1, IPV6) →
        Ipv6Header.read_from_slice rest1 = .ok (ip, ip_rest) →
        Ipv6Header.skip_all_header_extensions_in_slice ip_rest ip.next_header = .error e →
        PacketHeaders.from_ethernet_slice packet = .error e) ∧
      (∀ eth rest0 vlan rest1 ip ip_rest next_header ip_rest2,
        Ethernet2Header.read_from_slice packet = .ok (eth, rest0) →
        vlan_step eth.ether_type rest0 = .ok (vlan, rest1, IPV6) →
        Ipv6Header.read_from_slice rest1 = .ok (ip, ip_rest) →
        Ipv6Header.skip_all_header_extensions_in_slice ip_rest ip.next_header =
          .ok (next_header, ip_rest2) →
        read_transport next_header ip_rest2 = .error e →
        PacketHeaders.from_ethernet_slice packet = .error e) ∧
      (IpHeader.read_from_slice packet = .error e →
        PacketHeaders.from_ip_slice packet = .error e) ∧
      (∀ ip rest, IpHeader.read_from_slice packet = .ok (ip, rest) →
        ip_transport_proto ip rest = .error e →
        PacketHeaders.from_ip_slice packet = .error e) ∧
      (∀ ip rest p rest2, IpHeader.read_from_slice packet = .ok (ip, rest) →
        ip_transport_proto ip rest = .ok (p, rest2) →
        read_transport p rest2 = .error e →
        PacketHeaders.from_ip_slice packet = .error e) ∧
      (PacketHeaders.from_ip_slice truncated_tcp_packet =
        .error (.UnexpectedEndOfSlice 20)) := by
  intro packet e
  refine ⟨?_, ?_, ?_, ?_, ?_, ?_, ?_, ?_, ?_, ?_, by decide⟩
  · intro h1
    simp [PacketHeaders.from_ethernet_slice, h1]
  · intro eth rest0 h1 h2
    simp [PacketHeaders.from_ethernet_slice, h1, h2]
  · intro eth rest0 vlan rest1 h1 h2 h3
    simp [PacketHeaders.from_ethernet_slice, h1, h2, h3]
  · intro eth rest0 vlan rest1 ip ip_rest h1 h2 h3 h4
    simp [PacketHeaders.from_ethernet_slice, h1, h2, h3, h4]
  · intro eth rest0 vlan rest1 h1 h2 h3
    simp [PacketHeaders.from_ethernet_slice, h1, h2, h3, IPV4, IPV6]
  · intro eth rest0 vlan rest1 ip ip_rest h1 h2 h3 h4
    simp [PacketHeaders.from_ethernet_slice, h1, h2, h3, h4, IPV4, IPV6]
  · intro eth rest0 vlan rest1 ip ip_rest next_header ip_rest2 h1 h2 h3 h4 h5
    simp [PacketHeaders.from_ethernet_slice, h1, h2, h3, h4, h5, IPV4, IPV6]
  · intro h1
    simp [PacketHeaders.from_ip_slice, h1]
  · intro ip rest h1 h2
    simp [PacketHeaders.from_ip_slice, h1, h2]
  · intro ip rest p rest2 h1 h2 h3
    simp [PacketHeaders.from_ip_slice, h1, h2, h3]

/-- C2 witness: the link collaborator fails on the empty input and
`from_ethernet_slice` returns exactly that failure. -/
theorem C2_error_propagation_witness :
    PacketHeaders.from_ethernet_slice [] = .error (.UnexpectedEndOfSlice 14) :=
  (C2_error_propagation [] (.UnexpectedEndOfSlice 14)).1 (by decide)

/-- C3: at most two VLAN tags are ever consumed: `vlan` is `Double` exactly
when the link ether type and the outer tag's ether type are both VLAN
markers; when only the link ether type is a marker the result is `Single`;
otherwise `vlan` is `none`.  Even if the inner tag's own ether type is again
a VLAN marker, no third tag is read: that ether type is used as-is for
network-layer dispatch (so no network layer is decoded and the payload
starts right after the second tag). -/
theorem C3_vlan_double_tag_cap :
    ∀ (packet : List Nat) (eth : Ethernet2Header) (rest : List Nat)
      (r : PacketHeaders),
      Ethernet2Header.read_from_slice packet = .ok (eth, rest) →
      PacketHeaders.from_ethernet_slice packet = .ok r →
      ((is_vlan_ether_type eth.ether_type = false → r.vlan = none) ∧
       (∀ outer orest, is_vlan_ether_type eth.ether_type = true →
         SingleVlanHeader.read_from_slice rest = .ok (outer, orest) →
         ((is_vlan_ether_type outer.ether_type = false →
            r.vlan = some (.Single outer)) ∧
          (∀ inner irest, is_vlan_ether_type outer.ether_type = true →
            SingleVlanHeader.read_from_slice orest = .ok (inner, irest) →
            (r.vlan = some (.Double { outer := outer, inner := inner }) ∧
             (is_vlan_ether_type inner.ether_type = true →
               r.ip = none ∧ r.transport = none ∧ r.payload = irest)))))) := by
  intro packet eth rest r heth hok
  refine ⟨?_, ?_⟩
  · intro hno
    exact (from_eth_link_vlan_fields heth (vlan_step_none hno) hok).2
  · intro outer orest hm ho
    refine ⟨?_, ?_⟩
    · intro hno2
      exact (from_eth_link_vlan_fields heth (vlan_step_single hm ho hno2) hok).2
    · intro inner irest hm2 hi
      have hv := vlan_step_double hm ho hm2 hi
      refine ⟨(from_eth_link_vlan_fields heth hv hok).2, ?_⟩
      intro hm3
      obtain ⟨ht4, ht6⟩ := vlan_marker_not_ip hm3
      have hr := Except.ok.inj ((from_eth_of_steps heth hv ht4 ht6).symm.trans hok)
      subst hr
      exact ⟨rfl, rfl, rfl⟩

/-- C3 witness: on the triple-VLAN-marker packet exactly two tags are
decoded, and the inner tag's VLAN-marker ether type is used as-is for
dispatch: no network layer, and the payload starts right after the second
tag. -/
theorem C3_vlan_double_tag_cap_witness :
    triple_vlan_headers.vlan =
      some (.Double { outer := triple_vlan_outer, inner := triple_vlan_inner }) ∧
    triple_vlan_headers.ip = none ∧ triple_vlan_headers.transport = none ∧
    triple_vlan_headers.payload = [1,2,3] := by
  obtain ⟨hd, hrest⟩ :=
    ((C3_vlan_double_tag_cap triple_vlan_packet triple_vlan_eth
        (triple_vlan_packet.drop 14) triple_vlan_headers (by decide) (by decide)).2
      triple_vlan_outer (triple_vlan_packet.drop 18) (by decide) (by decide)).2
      triple_vlan_inner [1,2,3] (by decide) (by decide)
  exact ⟨hd, hrest (by decide)⟩

/-- C4: when the link header (and any VLAN tags) decode successfully and the
effective ether type is neither a VLAN marker nor IPv4 nor IPv6,
`from_ethernet_slice` succeeds with no ip and no transport header, and the
payload is exactly the bytes remaining after the last decoded link/VLAN
header: an unrecognized type is not an error. -/
theorem C4_graceful_stop :
    ∀ (packet : List Nat) (eth : Ethernet2Header) (rest0 : List Nat)
      (vlan : Option VlanHeader) (rest1 : List Nat) (t : Nat),
      Ethernet2Header.read_from_slice packet = .ok (eth, rest0) →
      vlan_step eth.ether_type rest0 = .ok (vlan, rest1, t) →
      is_vlan_ether_type t = false → t ≠ IPV4 → t ≠ IPV6 →
      PacketHeaders.from_ethernet_slice packet =
        .ok { link := some eth, vlan := vlan, ip := none, transport := none,
              payload := rest1 } := by
  intro packet eth rest0 vlan rest1 t heth hvlan hmk ht4 ht6
  exact from_eth_of_steps heth hvlan ht4 ht6

/-- C4 witness: an ARP packet (ether type 0x0806) decodes to a stack with no
vlan, ip or transport layer and a payload of everything after the 14-byte
link header. -/
theorem C4_graceful_stop_witness :
    PacketHeaders.from_ethernet_slice arp_packet =
      .ok { link := some { destination := [1,2,3,4,5,6],
                           source := [7,8,9,10,11,12], ether_type := 0x0806 },
            vlan := none, ip := none, transport := none,
            payload := [9,9,9,9,9] } :=
  C4_graceful_stop arp_packet
    { destination := [1,2,3,4,5,6], source := [7,8,9,10,11,12],
      ether_type := 0x0806 }
    [9,9,9,9,9] none [9,9,9,9,9] 0x0806
    (by decide) (by decide) (by decide) (by decide) (by decide)

/-- C5: for a protocol number that is neither TCP nor UDP, `read_transport`
succeeds with no transport header and the slice unchanged; it fails only
when the protocol number is TCP or UDP and the corresponding collaborator
fails, and the failure is that collaborator's failure. -/
theorem C5_unknown_transport_protocol :
    ∀ (protocol : Nat) (s : List Nat),
      (protocol ≠ TCP → protocol ≠ UDP →
        read_transport protocol s = .ok (none, s)) ∧
      (∀ e, read_transport protocol s = .error e →
        (protocol = UDP ∧ UdpHeader.read_from_slice s = .error e) ∨
        (protocol = TCP ∧ TcpHeader.read_from_slice s = .error e)) := by
  intro protocol s
  constructor
  · intro ht hu
    simp [read_transport, ht, hu]
  · intro e he
    unfold read_transport at he
    split at he
    · rename_i hU
      split at he
      · cases he
      · rename_i hu
        cases he
        exact Or.inl ⟨hU, hu⟩
    · split at he
      · rename_i hU hT
        split at he
        · cases he
        · rename_i hu
          cases he
          exact Or.inr ⟨hT, hu⟩
      · cases he

/-- C5 witness: protocol number 99 with a 10-byte slice yields no transport
header and leaves the slice unchanged. -/
theorem C5_unknown_transport_protocol_witness :
    read_transport 99 [0,1,2,3,4,5,6,7,8,9] = .ok (none, [0,1,2,3,4,5,6,7,8,9]) :=
  (C5_unknown_transport_protocol 99 [0,1,2,3,4,5,6,7,8,9]).1 (by decide) (by decide)

/-- C6 amended: within each entry decoder, lower layers require the upper
ones that decoder produces: for `from_ethernet_slice`, link is always
populated and transport requires ip; for `from_ip_slice`, link and vlan are
always unset by contract and transport requires ip.  (The unamended claim
fails because `from_ip_slice` returns stacks with `link = none` and `ip`
populated.) -/
theorem C6_top_down_dependency_amended :
    ∀ (packet : List Nat) (r : PacketHeaders),
      (PacketHeaders.from_ethernet_slice packet = .ok r →
        r.link.isSome ∧ (r.vlan.isSome → r.link.isSome) ∧
        (r.ip.isSome → r.link.isSome) ∧ (r.transport.isSome → r.ip.isSome)) ∧
      (PacketHeaders.from_ip_slice packet = .ok r →
        r.link = none ∧ r.vlan = none ∧ (r.transport.isSome → r.ip.isSome)) := by
  intro packet r
  constructor
  · intro hok
    obtain ⟨h1, h2⟩ := from_eth_ok_inv hok
    exact ⟨h1, fun _ => h1, fun _ => h1, h2⟩
  · intro hok
    obtain ⟨h1, h2, h3, h4⟩ := from_ip_ok_inv hok
    exact ⟨h1, h2, h4⟩

/-- C6 counterexample: a successful `from_ip_slice` decode with `link`
absent and `ip` present, contradicting "a field is populated only if every
field above it in the stack order was itself populated". -/
theorem C6_top_down_dependency_counterexample :
    PacketHeaders.from_ip_slice udp_scenario_ip_suffix =
      .ok udp_scenario_ip_headers ∧
    udp_scenario_ip_headers.link = none ∧
    udp_scenario_ip_headers.ip.isSome := by decide

/-- C6 witness: the amended dependency conjunction on the UDP scenario
decode. -/
theorem C6_top_down_dependency_witness :
    udp_scenario_headers.link.isSome ∧ udp_scenario_headers.ip.isSome := by
  obtain ⟨h1, -, -, h4⟩ :=
    (C6_top_down_dependency_amended udp_scenario_packet udp_scenario_headers).1
      (by decide)
  exact ⟨h1, h4 (by decide)⟩

/-- C7: whenever `from_ip_slice` returns successfully, the resulting header
stack has no link header and no VLAN tags. -/
theorem C7_from_ip_no_link_no_vlan :
    ∀ (packet : List Nat) (r : PacketHeaders),
      PacketHeaders.from_ip_slice packet = .ok r →
      r.link = none ∧ r.vlan = none := by
  intro packet r hok
  exact ⟨(from_ip_ok_inv hok).1, (from_ip_ok_inv hok).2.1⟩

/-- C7 witness: the IP-suffix of the UDP scenario decodes with no link and
no vlan. -/
theorem C7_from_ip_no_link_no_vlan_witness :
    udp_scenario_ip_headers.link = none ∧ udp_scenario_ip_headers.vlan = none :=
  C7_from_ip_no_link_no_vlan udp_scenario_ip_suffix udp_scenario_ip_headers
    (by decide)

/-- C8 amended: for a buffer whose link header announces IPv4 and which
decodes successfully via `from_ethernet_slice`, decoding the suffix after
the link header via `from_ip_slice` produces the identical header stack
except `link = none` and `vlan = none`.  For the 44-byte UDP scenario the
suffix is its last 30 bytes (IPv4 header + UDP header + payload), not its
last 28 bytes as claimed. -/
theorem C8_network_entry_equivalence_amended :
    ∀ (packet : List Nat) (eth : Ethernet2Header) (rest : List Nat)
      (r : PacketHeaders),
      Ethernet2Header.read_from_slice packet = .ok (eth, rest) →
      eth.ether_type = IPV4 →
      PacketHeaders.from_ethernet_slice packet = .ok r →
      PacketHeaders.from_ip_slice rest =
        .ok { link := none, vlan := none, ip := r.ip,
              transport := r.transport, payload := r.payload } := by
  intro packet eth rest r heth het hok
  unfold PacketHeaders.from_ethernet_slice at hok
  simp only [heth] at hok
  rw [het] at hok
  have hnv : is_vlan_ether_type IPV4 = false := by decide
  simp only [vlan_step_none hnv] at hok
  rw [if_true] at hok
  split at hok
  · cases hok
  · rename_i hip
    split at hok
    · cases hok
    · rename_i htr
      simp only [Except.ok.injEq] at hok
      subst hok
      unfold PacketHeaders.from_ip_slice
      rw [ip_read_of_ipv4 hip]
      simp [ip_transport_proto, htr]

/-- C8 counterexample: the literal last 28 bytes of the 44-byte UDP scenario
begin in the middle of the IPv4 header, and `from_ip_slice` fails on them
instead of producing any header stack. -/
theorem C8_network_entry_equivalence_counterexample :
    PacketHeaders.from_ip_slice (List.drop 16 udp_scenario_packet) =
      .error (.IpUnsupportedVersion 0) ∧
    (List.drop 16 udp_scenario_packet).length = 28 ∧
    udp_scenario_packet.length = 44 := by decide

/-- C8 witness: the last 30 bytes of the UDP scenario (IPv4 header + UDP
header + payload) decode via `from_ip_slice` to the scenario's stack with
`link = none` and `vlan = none`. -/
theorem C8_network_entry_equivalence_witness :
    PacketHeaders.from_ip_slice udp_scenario_ip_suffix =
      .ok { link := none, vlan := none, ip := udp_scenario_headers.ip,
            transport := udp_scenario_headers.transport,
            payload := udp_scenario_headers.payload } :=
  C8_network_entry_equivalence_amended udp_scenario_packet
    { destination := [1,2,3,4,5,6], source := [7,8,9,10,11,12],
      ether_type := 0x0800 }
    udp_scenario_ip_suffix udp_scenario_headers
    (by decide) (by decide) (by decide)

/-- C9: the concrete 44-byte UDP scenario input decodes via
`from_ethernet_slice` to a stack with the link header present, no vlan, an
IPv4 header, a UDP header, and payload `[0x41, 0x42]`. -/
theorem C9_end_to_end_udp_scenario :
    PacketHeaders.from_ethernet_slice udp_scenario_packet =
      .ok udp_scenario_headers ∧
    udp_scenario_packet.length = 44 ∧
    udp_scenario_headers.link.isSome ∧
    udp_scenario_headers.vlan = none ∧
    (∃ h4, udp_scenario_headers.ip = some (.Version4 h4)) ∧
    (∃ hu, udp_scenario_headers.transport = some (.Udp hu)) ∧
    udp_scenario_headers.payload = [0x41, 0x42] :=
  ⟨by decide, by decide, by decide, by decide, ⟨_, rfl⟩, ⟨_, rfl⟩, by decide⟩

/-- C10: whenever `from_ethernet_slice` returns successfully, the `link`
field of the result is populated: decoding the link header is the
unconditional first step. -/
theorem C10_link_always_populated :
    ∀ (packet : List Nat) (r : PacketHeaders),
      PacketHeaders.from_ethernet_slice packet = .ok r → r.link.isSome := by
  intro packet r hok
  exact (from_eth_ok_inv hok).1

/-- C10 witness: the triple-VLAN packet decodes with `link` populated. -/
theorem C10_link_always_populated_witness :
    triple_vlan_headers.link.isSome :=
  C10_link_always_populated triple_vlan_packet triple_vlan_headers (by decide)
